import Mathlib

/-!
Shallow embedding of the connection-lifecycle orchestrator in src/index.js and
src/errors.js (package node-1c-esb).  Pure data transformations are translated
directly; the asynchronous control flow of a connect attempt is modelled by
explicit state passing over `ConnState`, with the outcomes of the external
collaborators (the HTTP fetches and the rhea transport open) supplied as an
explicit environment `AttemptEnv`.  The list `trace` of an `OpenResult` records
the orchestrator state at each await boundary of `_openConnection`, in order.
-/

/-- Error classes of src/errors.js.  `ConnectionError` is the generic class
(the specification taxonomy calls it Retryable), `ConnectionFatalError` is the
Fatal class (defined in errors.js but never thrown by src/index.js), and
`ConnectionAbortError` is the Cancelled class.  `jsError` stands for a plain
JavaScript Error that is thrown without being wrapped in one of the classes. -/
inductive ErrorKind
  | connectionError
  | connectionFatalError
  | connectionAbortError
  | jsError
deriving DecidableEq, Repr

/-- An error value: its class plus the human-readable message built by the code. -/
structure EsbError where
  kind : ErrorKind
  message : String
deriving DecidableEq, Repr

/-- The class of the error of a failed computation, `none` on success. -/
def errKind {α : Type} (r : Except EsbError α) : Option ErrorKind :=
  match r with
  | .error e => some e.kind
  | .ok _ => none

/-- One channel descriptor as returned in the `items` field of the channel
listing endpoint: fields `process`, `channel`, `destination`. -/
structure ChannelDescriptor where
  process : String
  channel : String
  destination : String
deriving DecidableEq, Repr

/-- The observable part of an HTTP response, as used by `_fetchToken` and
`_fetchChannels`: the status, whether `response.json()` succeeds, and the body
fields the code reads when it does (`id_token`, `error.message`, `items`). -/
structure HttpResponse where
  status : Nat
  jsonParses : Bool
  idToken : Option String
  errorMessage : Option String
  items : List ChannelDescriptor
deriving DecidableEq, Repr

/-- Outcome of one `fetch(...)` call: either the promise rejects with a
JavaScript error (identified by its `name` and `message`, the code branches on
`error.name === "AbortError"`), or an HTTP response arrives. -/
inductive FetchOutcome
  | threw (name : String) (message : String)
  | responded (response : HttpResponse)
deriving DecidableEq, Repr

/-- `_fetchToken` of src/index.js.  A thrown fetch error is wrapped as
`ConnectionAbortError` when its name is AbortError, else as `ConnectionError`.
On a response, a failed `response.json()` is caught and replaced by an empty
object; any non-200 status throws a `ConnectionError` whose message carries the
status and the `error.message` body field (the string "undefined" when that
field is absent, as the JavaScript template literal produces); on 200 the
`id_token` field is returned as is, which is `none` when absent. -/
def fetchToken (outcome : FetchOutcome) : Except EsbError (Option String) :=
  match outcome with
  | .threw name msg =>
      if name = "AbortError" then
        .error ⟨.connectionAbortError, "Abort fetch token!"⟩
      else
        .error ⟨.connectionError, "Failed to fetch token: " ++ msg⟩
  | .responded r =>
      let jsonErrorMessage : Option String :=
        if r.jsonParses then r.errorMessage else none
      if r.status ≠ 200 then
        .error ⟨.connectionError,
          "Failed to fetch token: Server returned " ++ toString r.status ++ " "
            ++ jsonErrorMessage.getD "undefined"⟩
      else
        .ok (if r.jsonParses then r.idToken else none)

/-- `_fetchChannels` of src/index.js.  Same wrapping of thrown fetch errors;
non-200 throws a `ConnectionError` carrying the status; on 200 the body is
parsed (a parse failure here is not caught and propagates as a plain error)
and the `items` list is returned. -/
def fetchChannels (outcome : FetchOutcome) : Except EsbError (List ChannelDescriptor) :=
  match outcome with
  | .threw name msg =>
      if name = "AbortError" then
        .error ⟨.connectionAbortError, "Abort fetch remote channels!"⟩
      else
        .error ⟨.connectionError, "Failed to fetch remote channels: " ++ msg⟩
  | .responded r =>
      if r.status ≠ 200 then
        .error ⟨.connectionError,
          "Failed to fetch remote channels: Server returned " ++ toString r.status⟩
      else if r.jsonParses then
        .ok r.items
      else
        .error ⟨.jsError, "invalid json body"⟩

/-- The composite registry key built in `_openConnection`:
`process + "." + channel`. -/
def channelKey (c : ChannelDescriptor) : String :=
  c.process ++ "." ++ c.channel

/-- The entry list handed to `new Map(...)` in `_openConnection`: each
descriptor keyed by its composite name, in fetch order. -/
def buildChannels (items : List ChannelDescriptor) : List (String × ChannelDescriptor) :=
  items.map (fun c => (channelKey c, c))

/-- JavaScript `Map` semantics for construction from an entry list followed by
`get`: entries are set left to right, a later entry with the same key
overwrites an earlier one, and `get` returns the resulting value. -/
def mapGet (entries : List (String × ChannelDescriptor)) (k : String) :
    Option ChannelDescriptor :=
  entries.foldl (fun a e => if e.1 == k then some e.2 else a) none

/-- Caller-supplied `reconnect` field inside the caller amqp options of
src/index.js: absent, the boolean `true`, a falsy value (`false`, `null`), or
a possibly incomplete tuning object. -/
structure ReconnectInput where
  reconnect_limit : Option Nat
  initial_reconnect_delay : Option Nat
  max_reconnect_delay : Option Nat
deriving DecidableEq, Repr

/-- Shape of the caller value at key `amqp.reconnect`. -/
inductive ReconnectOpt
  | rcUnset
  | rcTrue
  | rcFalsy
  | rcObj (o : ReconnectInput)
deriving DecidableEq, Repr

/-- Caller-supplied `amqp` object, fields optional. -/
structure AmqpInput where
  port : Option Nat
  max_frame_size : Option Nat
  channel_max : Option Nat
  reconnect : ReconnectOpt
deriving DecidableEq, Repr

/-- Shape of the caller value at key `amqp`: absent, falsy, or an object. -/
inductive AmqpOpt
  | aUnset
  | aFalsy
  | aObj (o : AmqpInput)
deriving DecidableEq, Repr

/-- The caller options object passed to the `Connection` constructor; every
field the sanitizer touches, all optional. -/
structure OptionsInput where
  url : Option String
  clientKey : Option String
  clientSecret : Option String
  operationTimeoutInSeconds : Option Nat
  amqp : AmqpOpt
deriving DecidableEq, Repr

/-- The `amqp.reconnect` value after the deep merge of user options over
`defaultOpts`: still possibly the literal `true` (replaced later by
`sanitizeOptions`), falsy, or a fully populated tuning object. -/
inductive MergedReconnect
  | rtrue
  | rfalsy
  | robj (reconnect_limit initial_reconnect_delay max_reconnect_delay : Nat)
deriving DecidableEq, Repr

/-- The `amqp` object after the merge. -/
structure MergedAmqp where
  port : Nat
  max_frame_size : Nat
  channel_max : Nat
  reconnect : MergedReconnect
deriving DecidableEq, Repr

/-- The value at key `amqp` after the merge: falsy (a falsy caller value
overwrites the default object in a lodash deep merge) or an object. -/
inductive AmqpMergedOpt
  | falsy
  | obj (a : MergedAmqp)
deriving DecidableEq, Repr

/-- The sanitized configuration record held in `this._options`. -/
structure MergedOptions where
  url : String
  clientKey : String
  clientSecret : String
  operationTimeoutInSeconds : Nat
  amqp : AmqpMergedOpt
deriving DecidableEq, Repr

/-- `defaultOpts.amqp.reconnect` of src/index.js:
`{ reconnect_limit: 10, initial_reconnect_delay: 100, max_reconnect_delay: 60000 }`. -/
def defaultReconnect : MergedReconnect := .robj 10 100 60000

/-- `defaultOpts.amqp` of src/index.js. -/
def defaultAmqp : MergedAmqp := ⟨6698, 1000000, 7000, defaultReconnect⟩

/-- The step `merge({}, defaultOpts, options)` of `sanitizeOptions`: a lodash
deep merge of the caller options over the defaults.  A present caller value
overwrites the default (falsy values included); object values are merged
field by field; absent fields keep the default. -/
def mergeOptsStep (o : OptionsInput) : MergedOptions :=
  { url := o.url.getD ""
    clientKey := o.clientKey.getD ""
    clientSecret := o.clientSecret.getD ""
    operationTimeoutInSeconds := o.operationTimeoutInSeconds.getD 60
    amqp :=
      match o.amqp with
      | .aUnset => .obj defaultAmqp
      | .aFalsy => .falsy
      | .aObj a =>
          .obj
            { port := a.port.getD defaultAmqp.port
              max_frame_size := a.max_frame_size.getD defaultAmqp.max_frame_size
              channel_max := a.channel_max.getD defaultAmqp.channel_max
              reconnect :=
                match a.reconnect with
                | .rcUnset => defaultReconnect
                | .rcTrue => .rtrue
                | .rcFalsy => .rfalsy
                | .rcObj ro =>
                    .robj (ro.reconnect_limit.getD 10)
                      (ro.initial_reconnect_delay.getD 100)
                      (ro.max_reconnect_delay.getD 60000) } }

/-- `sanitizeOptions` of src/index.js: the merge step, then the fixups in
source order: a falsy `amqp` is replaced by `defaultOpts.amqp`; an
`amqp.reconnect` that is exactly `true` is replaced by
`defaultOpts.amqp.reconnect`; a falsy `operationTimeoutInSeconds` (0 here)
is replaced by the default 60. -/
def sanitizeOptions (o : OptionsInput) : MergedOptions :=
  let s0 := mergeOptsStep o
  let s1 :=
    match s0.amqp with
    | .falsy => { s0 with amqp := .obj defaultAmqp }
    | .obj _ => s0
  let s2 :=
    match s1.amqp with
    | .obj a =>
        match a.reconnect with
        | .rtrue => { s1 with amqp := .obj { a with reconnect := defaultReconnect } }
        | _ => s1
    | .falsy => s1
  if s2.operationTimeoutInSeconds = 0 then
    { s2 with operationTimeoutInSeconds := 60 }
  else s2

/-- The sanitized `amqp.reconnect` value (after `sanitizeOptions` the `amqp`
slot is always an object). -/
def reconnectOf (s : MergedOptions) : MergedReconnect :=
  match s.amqp with
  | .falsy => .rfalsy
  | .obj a => a.reconnect

/-- Truthiness of `this._options.amqp.reconnect`, as tested by
`_openRheaConnection` before enabling transport auto-reconnect. -/
def reconnectEnabled (s : MergedOptions) : Bool :=
  match reconnectOf s with
  | .rfalsy => false
  | _ => true

/-- The rhea connection handle as the orchestrator observes it: whether the
transport reports the connection open, and the transport auto-reconnect flag
toggled through `set_reconnect`. -/
structure RheaHandle where
  rheaIsOpen : Bool
  reconnectFlag : Bool
deriving DecidableEq, Repr

/-- The mutable state of a `Connection` instance: the channel registry map
(`this._channels`, as its entry list) and the rhea handle (`this._connection`,
`none` before the first connect attempt). -/
structure ConnState where
  channels : List (String × ChannelDescriptor)
  connection : Option RheaHandle
deriving DecidableEq, Repr

/-- `isOpen()` of src/index.js: true iff a rhea handle exists and reports open. -/
def connIsOpen (s : ConnState) : Bool :=
  match s.connection with
  | some h => h.rheaIsOpen
  | none => false

/-- `getChannel(channelName)` of src/index.js: a `Map.get` on the registry
with the composite channel name, exact key match. -/
def getChannel (s : ConnState) (channelName : String) : Option ChannelDescriptor :=
  mapGet s.channels channelName

/-- Outcome of `rheaConnection.open()` for one attempt: the transport opens,
or the promise rejects with a JavaScript error. -/
inductive RheaOpenOutcome
  | opened
  | threw (name : String) (message : String)
deriving DecidableEq, Repr

/-- Environment of one connect attempt: the outcomes of its three external
calls, in the order the code awaits them. -/
structure AttemptEnv where
  tokenOutcome : FetchOutcome
  channelsOutcome : FetchOutcome
  rheaOutcome : RheaOpenOutcome
deriving DecidableEq, Repr

/-- Result of `open()`: the settled value, how many times `_openConnection`
was entered, the list of backoff sleeps performed between attempts (their
durations in ms), the state observable when the returned promise settles, and
the trace of states at each await boundary inside the attempt. -/
structure OpenResult where
  result : Except EsbError Unit
  attemptCount : Nat
  backoffDelays : List Nat
  finalState : ConnState
  trace : List ConnState
deriving Repr

/-- `open()` of src/index.js around `_openConnection`.  When already open it
resolves at once without an attempt.  Otherwise one single attempt runs:
fetch token, fetch channels, rebuild the registry (before the transport is
touched), assign a fresh rhea handle, open it, and on success enable
transport auto-reconnect iff the sanitized options carry a truthy
`amqp.reconnect`.  Any failure is propagated as the rejection of `open()`
after one attempt, with no sleep and no retry (the `catch` in `open()` starts
an asynchronous `_closeConnection` cleanup but rejects immediately; the
final state recorded here is the one observable at rejection time). -/
def openConn (cfg : MergedOptions) (s0 : ConnState) (env : AttemptEnv) : OpenResult :=
  if connIsOpen s0 then
    ⟨.ok (), 0, [], s0, [s0]⟩
  else
    match fetchToken env.tokenOutcome with
    | .error e => ⟨.error e, 1, [], s0, [s0]⟩
    | .ok _token =>
        match fetchChannels env.channelsOutcome with
        | .error e => ⟨.error e, 1, [], s0, [s0]⟩
        | .ok items =>
            let s1 : ConnState := { s0 with channels := buildChannels items }
            let s2 : ConnState := { s1 with connection := some ⟨false, false⟩ }
            match env.rheaOutcome with
            | .threw name msg =>
                let m := "Failed to open AMQP connection: " ++ msg
                let e : EsbError :=
                  if name = "AbortError" then ⟨.connectionAbortError, m⟩
                  else ⟨.connectionError, m⟩
                ⟨.error e, 1, [], s2, [s0, s1, s2]⟩
            | .opened =>
                let s3 : ConnState :=
                  { s1 with connection := some ⟨true, reconnectEnabled cfg⟩ }
                ⟨.ok (), 1, [], s3, [s0, s1, s2, s3]⟩

/-- Result of `close()`: how many times `rheaConnection.close()` was invoked
on the transport, how many times `set_reconnect(false)` was invoked, and the
resulting state. -/
structure CloseResult where
  transportCloseCalls : Nat
  setReconnectFalseCalls : Nat
  finalState : ConnState
deriving Repr

/-- `close()` of src/index.js via `_closeConnection`: when a rhea handle
exists (whatever its open state - the handle is never cleared), disable
transport auto-reconnect and invoke the transport close, then replace the
registry by a fresh empty map; when no handle exists, only the registry
replacement happens.  The transport close is modelled as succeeding. -/
def closeConn (s : ConnState) : CloseResult :=
  match s.connection with
  | none => ⟨0, 0, { s with channels := [] }⟩
  | some _h => ⟨1, 1, { channels := [], connection := some ⟨false, false⟩ }⟩

/-- A `target`/`source` record inside link options: the `address` field the
code injects, plus a representative extra field (`durable`) to track how a
deep merge treats sibling fields. -/
structure AddressOpts where
  address : Option String
  durable : Option Nat
deriving DecidableEq, Repr

/-- Caller-supplied options for `createSender` / `createReceiver` /
`createAwaitableSender`: the fields the injected record can collide with,
plus a representative unrelated field (`name`). -/
structure LinkOpts where
  linkName : Option String
  target : Option AddressOpts
  source : Option AddressOpts
deriving DecidableEq, Repr

/-- An empty options object `{}`. -/
def emptyLinkOpts : LinkOpts := ⟨none, none, none⟩

/-- lodash `merge(base, { address: dest })` on one address record: the
injected `address` (the second argument) overwrites any caller value, the
sibling fields of the caller record survive; a missing caller record behaves
as an empty object. -/
def mergeAddress (base : Option AddressOpts) (dest : String) : AddressOpts :=
  { address := some dest, durable := base.bind (fun a => a.durable) }

/-- lodash `merge(options, { target: { address: dest } })`: the options object
with the destination deep-merged into its `target` record. -/
def mergeTargetAddress (opts : LinkOpts) (dest : String) : LinkOpts :=
  { opts with target := some (mergeAddress opts.target dest) }

/-- lodash `merge(options, { source: { address: dest } })`: the options object
with the destination deep-merged into its `source` record. -/
def mergeSourceAddress (opts : LinkOpts) (dest : String) : LinkOpts :=
  { opts with source := some (mergeAddress opts.source dest) }

/-- A single-quote character as a string, used in the channel-not-found
message of src/index.js. -/
def singleQuote : String := String.singleton (Char.ofNat 39)

/-- What a successful link creation did: the options object handed to the
rhea `create...` call, and the value of the caller options object after the
call.  lodash `merge` mutates its first argument and returns it, so the two
are the same object in the source. -/
structure LinkCreateCall where
  transportOpts : LinkOpts
  callerOptsAfter : LinkOpts
deriving DecidableEq, Repr

/-- `createSender(channelName, options)` of src/index.js: requires `isOpen()`,
resolves the channel via `getChannel` (else throws a plain error naming the
requested channel), then calls the rhea `createSender` with the destination
deep-merged into `options.target` by `merge(options, ...)`, which mutates the
caller object. -/
def createSender (s : ConnState) (channelName : String) (opts : LinkOpts) :
    Except EsbError LinkCreateCall :=
  if connIsOpen s then
    match getChannel s channelName with
    | none =>
        .error ⟨.jsError, "Channel " ++ singleQuote ++ channelName ++ singleQuote ++ " not found"⟩
    | some ch =>
        let merged := mergeTargetAddress opts ch.destination
        .ok ⟨merged, merged⟩
  else
    .error ⟨.jsError, "Connection is closed!"⟩

/-- `createReceiver(channelName, options)` of src/index.js: as `createSender`
but the destination is deep-merged into `options.source`. -/
def createReceiver (s : ConnState) (channelName : String) (opts : LinkOpts) :
    Except EsbError LinkCreateCall :=
  if connIsOpen s then
    match getChannel s channelName with
    | none =>
        .error ⟨.jsError, "Channel " ++ singleQuote ++ channelName ++ singleQuote ++ " not found"⟩
    | some ch =>
        let merged := mergeSourceAddress opts ch.destination
        .ok ⟨merged, merged⟩
  else
    .error ⟨.jsError, "Connection is closed!"⟩

/-- `createAwaitableSender(channelName, options)` of src/index.js: identical
to `createSender` up to the rhea entry point invoked. -/
def createAwaitableSender (s : ConnState) (channelName : String) (opts : LinkOpts) :
    Except EsbError LinkCreateCall :=
  if connIsOpen s then
    match getChannel s channelName with
    | none =>
        .error ⟨.jsError, "Channel " ++ singleQuote ++ channelName ++ singleQuote ++ " not found"⟩
    | some ch =>
        let merged := mergeTargetAddress opts ch.destination
        .ok ⟨merged, merged⟩
  else
    .error ⟨.jsError, "Connection is closed!"⟩

/-- Helper: a right fold that keeps the first hit computes `find?` composed
with the projection to the stored value. -/
theorem foldr_firstMatch (k : String) (lr : List (String × ChannelDescriptor)) :
    lr.foldr (fun e a => if e.1 == k then some e.2 else a) none
      = (lr.find? (fun e => e.1 == k)).map Prod.snd := by
  induction lr with
  | nil => rfl
  | cons e l ih =>
      by_cases h : (e.1 == k) = true
      · rw [List.find?_cons_of_pos (p := fun e => e.1 == k) l h]
        simp only [List.foldr_cons, if_pos h]
        rfl
      · rw [List.find?_cons_of_neg (p := fun e => e.1 == k) l h]
        simp only [List.foldr_cons, if_neg h]
        exact ih

/-- Helper: `mapGet` returns the value of the last entry carrying the key,
i.e. the first hit when scanning the entry list from the right. -/
theorem mapGet_eq_find_reverse (l : List (String × ChannelDescriptor)) (k : String) :
    mapGet l k = (l.reverse.find? (fun e => e.1 == k)).map Prod.snd := by
  have h := List.foldr_reverse l
    (fun (e : String × ChannelDescriptor) (a : Option ChannelDescriptor) =>
      if e.1 == k then some e.2 else a) none
  calc mapGet l k
      = l.reverse.foldr
          (fun e a => if e.1 == k then some e.2 else a) none := h.symm
    _ = (l.reverse.find? (fun e => e.1 == k)).map Prod.snd :=
        foldr_firstMatch k l.reverse

/-- Helper: looking up the registry built from a descriptor list finds the
last descriptor whose composite key matches. -/
theorem mapGet_buildChannels (items : List ChannelDescriptor) (k : String) :
    mapGet (buildChannels items) k
      = items.reverse.find? (fun c => channelKey c == k) := by
  rw [mapGet_eq_find_reverse]
  unfold buildChannels
  rw [← List.map_reverse, List.find?_map]
  rw [Option.map_map]
  have hpred :
      ((fun (e : String × ChannelDescriptor) => e.1 == k)
          ∘ fun c => (channelKey c, c))
        = fun c => channelKey c == k := rfl
  rw [hpred]
  have hid : (Prod.snd ∘ fun (c : ChannelDescriptor) => (channelKey c, c))
      = fun c => c := rfl
  rw [hid]
  cases items.reverse.find? (fun c => channelKey c == k) <;> rfl

/-- An empty caller options object `{}`. -/
def emptyInput : OptionsInput := ⟨none, none, none, none, .aUnset⟩

/-- The state of a freshly constructed `Connection`: empty registry, no rhea
handle. -/
def initialState : ConnState := ⟨[], none⟩

/-- A sample channel descriptor. -/
def demoDesc : ChannelDescriptor := ⟨"P", "C", "queue/p/c"⟩

/-- A 200 token response carrying `id_token = "abc"`. -/
def okTokenResponse : HttpResponse := ⟨200, true, some "abc", none, []⟩

/-- A 200 channel-listing response carrying one descriptor. -/
def okChannelsResponse : HttpResponse := ⟨200, true, none, none, [demoDesc]⟩

/-- A fully successful connect attempt environment. -/
def demoEnv : AttemptEnv :=
  ⟨.responded okTokenResponse, .responded okChannelsResponse, .opened⟩

/-- Two descriptors sharing the composite key "P.C". -/
def dupA : ChannelDescriptor := ⟨"P", "C", "amq.first"⟩

/-- Second descriptor with the key "P.C", listed after `dupA`. -/
def dupB : ChannelDescriptor := ⟨"P", "C", "amq.second"⟩

/-- C9: building the channel registry keys every descriptor by the composite
string process + "." + channel; on duplicate keys the later descriptor wins
(the lookup equals the first match in the reversed list) and the build never
fails; getChannel is an exact key match and yields none for any key no
descriptor produces. -/
theorem registry_build_lastWriterWins (items : List ChannelDescriptor) (k : String) :
    mapGet (buildChannels items) k = items.reverse.find? (fun c => channelKey c == k)
      ∧ (items.filter (fun c => channelKey c == k) = [] →
          mapGet (buildChannels items) k = none) := by
  refine ⟨mapGet_buildChannels items k, fun h => ?_⟩
  rw [mapGet_buildChannels items k, List.find?_eq_none]
  intro c hc
  exact (List.filter_eq_nil_iff.mp h) c (List.mem_reverse.mp hc)

/-- Witness for C9 at a duplicate-key list and an absent key: the lookup of
"P.C" returns the second descriptor, the lookup of "X.Y" returns none. -/
theorem registry_build_lastWriterWins_witness :
    mapGet (buildChannels [dupA, dupB]) "P.C" = some dupB
      ∧ mapGet (buildChannels [dupA, dupB]) "X.Y" = none := by
  have h1 := registry_build_lastWriterWins [dupA, dupB] "P.C"
  have h2 := registry_build_lastWriterWins [dupA, dupB] "X.Y"
  exact ⟨h1.1.trans (by decide), h2.2 (by decide)⟩

/-- C5 counterexample: on a successful connect attempt the registry is
rebuilt before the rhea handle opens, so the trace of open() contains a state
(index 2: after the handle is constructed, before its open resolves) whose
registry is non-empty while isOpen() reports false; the claimed invariant
fails at that lifecycle point. -/
theorem registry_nonempty_while_closed_cex :
    (openConn (sanitizeOptions emptyInput) initialState demoEnv).trace[2]?
        = some ⟨[("P.C", demoDesc)], some ⟨false, false⟩⟩
      ∧ ([("P.C", demoDesc)] : List (String × ChannelDescriptor)) ≠ []
      ∧ connIsOpen ⟨[("P.C", demoDesc)], some ⟨false, false⟩⟩ = false := by
  refine ⟨by decide, by decide, rfl⟩

/-- C5 amended: the round trip holds - after a successful open() the registry
is exactly the one built from the channel list fetched in that attempt, so
getChannel returns precisely the destination fetched there, and after close()
the same lookup returns none - but during the attempt the registry is
populated before the transport opens, so it can be non-empty while isOpen()
is false. -/
theorem open_close_roundTrip (cfg : MergedOptions) (s0 : ConnState)
    (tok : String) (items : List ChannelDescriptor) (k : String)
    (h : connIsOpen s0 = false) :
    (openConn cfg s0 ⟨.responded ⟨200, true, some tok, none, []⟩,
        .responded ⟨200, true, none, none, items⟩, .opened⟩).result = .ok ()
      ∧ getChannel (openConn cfg s0 ⟨.responded ⟨200, true, some tok, none, []⟩,
          .responded ⟨200, true, none, none, items⟩, .opened⟩).finalState k
        = mapGet (buildChannels items) k
      ∧ getChannel (closeConn (openConn cfg s0 ⟨.responded ⟨200, true, some tok, none, []⟩,
          .responded ⟨200, true, none, none, items⟩, .opened⟩).finalState).finalState k
        = none := by
  simp [openConn, h, fetchToken, fetchChannels, getChannel, closeConn, mapGet]

/-- Witness for C5 (amended) at the sample environment. -/
theorem open_close_roundTrip_witness :
    (openConn (sanitizeOptions emptyInput) initialState demoEnv).result = .ok ()
      ∧ getChannel (openConn (sanitizeOptions emptyInput) initialState demoEnv).finalState "P.C"
        = mapGet (buildChannels [demoDesc]) "P.C"
      ∧ getChannel (closeConn (openConn (sanitizeOptions emptyInput)
          initialState demoEnv).finalState).finalState "P.C" = none :=
  open_close_roundTrip (sanitizeOptions emptyInput) initialState "abc" [demoDesc] "P.C" rfl

/-- A state as left by a successful open() with reconnect configured. -/
def openedDemoState : ConnState := ⟨[("P.C", demoDesc)], some ⟨true, true⟩⟩

/-- C6 counterexample: the rhea handle is never cleared, so calling close()
twice in a row from an opened state issues a transport-level close call both
times - the second call is a duplicate close issued to the transport engine,
against the claim. -/
theorem close_duplicate_transport_close_cex :
    (closeConn openedDemoState).transportCloseCalls = 1
      ∧ (closeConn (closeConn openedDemoState).finalState).transportCloseCalls = 1
      ∧ connIsOpen (closeConn openedDemoState).finalState = false := ⟨rfl, rfl, rfl⟩

/-- C6 amended: close() is a value-level no-op (and issues no transport call)
only while no rhea handle exists; once a handle exists it is kept forever, so
every close() - a repeated one included - issues exactly one transport close
call and one set_reconnect(false) call. -/
theorem close_noop_only_without_handle (s : ConnState) :
    (s.connection = none →
        closeConn s = ⟨0, 0, { s with channels := [] }⟩)
      ∧ (∀ h, s.connection = some h →
          (closeConn s).transportCloseCalls = 1
            ∧ (closeConn s).setReconnectFalseCalls = 1
            ∧ (closeConn s).finalState.connection = some ⟨false, false⟩) := by
  constructor
  · intro hn
    unfold closeConn
    rw [hn]
  · intro h hh
    unfold closeConn
    rw [hh]
    exact ⟨rfl, rfl, rfl⟩

/-- Witness for C6 (amended): a never-opened connection closes without any
transport call; an opened one issues exactly one. -/
theorem close_noop_only_without_handle_witness :
    closeConn initialState = ⟨0, 0, ⟨[], none⟩⟩
      ∧ (closeConn openedDemoState).transportCloseCalls = 1 := by
  have h1 := (close_noop_only_without_handle initialState).1 rfl
  have h2 := ((close_noop_only_without_handle openedDemoState).2 ⟨true, true⟩ rfl).1
  exact ⟨h1.trans rfl, h2⟩

/-- A connect-attempt environment whose token fetch receives HTTP 503. -/
def env503 : AttemptEnv :=
  ⟨.responded ⟨503, true, none, none, []⟩, .responded okChannelsResponse, .opened⟩

/-- C2 counterexample: with the default configuration (reconnect present,
limit 10) and a retryable 503 failure of the first token fetch, open()
performs no backoff sleep and no second attempt: it rejects after exactly one
attempt with the ConnectionError, although one attempt is far below the
limit of 10 - there is no reconnect policy loop around the connect step. -/
theorem open_no_retry_cex :
    (openConn (sanitizeOptions emptyInput) initialState env503).attemptCount = 1
      ∧ (openConn (sanitizeOptions emptyInput) initialState env503).backoffDelays = []
      ∧ errKind (openConn (sanitizeOptions emptyInput) initialState env503).result
        = some .connectionError
      ∧ reconnectOf (sanitizeOptions emptyInput) = .robj 10 100 60000 :=
  ⟨rfl, rfl, rfl, rfl⟩

/-- C2 amended: from a non-open state open() makes exactly one connect
attempt for every configuration, reconnect enabled or not, sleeps never, and
propagates the failure of that single attempt verbatim; only after a fully
successful attempt is the transport handed the reconnect setting (its
auto-reconnect flag is set iff the sanitized options carry a truthy
amqp.reconnect). -/
theorem open_single_attempt (cfg : MergedOptions) (s0 : ConnState) (env : AttemptEnv)
    (h : connIsOpen s0 = false) :
    (openConn cfg s0 env).attemptCount = 1
      ∧ (openConn cfg s0 env).backoffDelays = []
      ∧ (∀ e, fetchToken env.tokenOutcome = .error e →
          (openConn cfg s0 env).result = .error e)
      ∧ (∀ t e, fetchToken env.tokenOutcome = .ok t →
          fetchChannels env.channelsOutcome = .error e →
          (openConn cfg s0 env).result = .error e)
      ∧ (∀ t items, fetchToken env.tokenOutcome = .ok t →
          fetchChannels env.channelsOutcome = .ok items →
          env.rheaOutcome = .opened →
          (openConn cfg s0 env).result = .ok ()
            ∧ (openConn cfg s0 env).finalState.connection
              = some ⟨true, reconnectEnabled cfg⟩) := by
  unfold openConn
  simp only [h, Bool.false_eq_true, if_false]
  cases hft : fetchToken env.tokenOutcome with
  | error e =>
      refine ⟨rfl, rfl, fun e h => by injection h with h; rw [h], ?_, ?_⟩
      · intro t e hok
        exact absurd hok (by simp)
      · intro t items hok
        exact absurd hok (by simp)
  | ok t =>
      cases hfc : fetchChannels env.channelsOutcome with
      | error e =>
          cases env.rheaOutcome <;>
            refine ⟨rfl, rfl, fun e h => by simp at h, ?_, ?_⟩ <;>
            first
              | (intro t e ht hc
                 injection hc with hc
                 rw [hc])
              | (intro t items ht hc
                 exact absurd hc (by simp))
      | ok items =>
          cases env.rheaOutcome with
          | opened =>
              refine ⟨rfl, rfl, fun e h => by simp at h,
                fun t e ht hc => by simp at hc, ?_⟩
              intro t2 items2 ht hc hr
              injection hc with hc
              exact ⟨rfl, rfl⟩
          | threw name msg =>
              refine ⟨rfl, rfl, fun e h => by simp at h,
                fun t e ht hc => by simp at hc, ?_⟩
              intro t2 items2 ht hc hr
              exact absurd hr (by simp)

/-- Witness for C2 (amended) at the sample successful environment. -/
theorem open_single_attempt_witness :
    (openConn (sanitizeOptions emptyInput) initialState demoEnv).attemptCount = 1
      ∧ (openConn (sanitizeOptions emptyInput) initialState demoEnv).result = .ok () := by
  have h := open_single_attempt (sanitizeOptions emptyInput) initialState demoEnv rfl
  exact ⟨h.1, (h.2.2.2.2 (some "abc") [demoDesc] rfl rfl rfl).1⟩

/-- C1 counterexample: the code never classifies by HTTP status: a 401 from
the token endpoint is thrown as the generic ConnectionError - the same class
a 503 gets, and the class the specification taxonomy calls Retryable - not
as the Fatal class ConnectionFatalError; so the statuses outside
408, 429, 500, 502, 503, 504 are not classified Fatal. -/
theorem status_classification_cex :
    errKind (fetchToken (.responded ⟨401, true, none, none, []⟩))
        = some .connectionError
      ∧ errKind (fetchToken (.responded ⟨503, true, none, none, []⟩))
        = some .connectionError
      ∧ ErrorKind.connectionError ≠ ErrorKind.connectionFatalError :=
  ⟨rfl, rfl, by decide⟩

/-- C1 amended: every non-200 status from the token endpoint or the channel
endpoint is thrown as the generic ConnectionError class, whatever the status
value; a 401 from the token endpoint therefore makes open() reject with a
ConnectionError - not a Fatal error - after exactly one attempt. -/
theorem non200_uniform_connectionError (r : HttpResponse) (cfg : MergedOptions)
    (s0 : ConnState) (hs : r.status ≠ 200) (h0 : connIsOpen s0 = false) :
    errKind (fetchToken (.responded r)) = some .connectionError
      ∧ errKind (fetchChannels (.responded r)) = some .connectionError
      ∧ (openConn cfg s0 ⟨.responded r, .responded r, .opened⟩).attemptCount = 1
      ∧ errKind (openConn cfg s0 ⟨.responded r, .responded r, .opened⟩).result
        = some .connectionError := by
  refine ⟨?_, ?_, ?_, ?_⟩
  · simp [fetchToken, hs, errKind]
  · simp [fetchChannels, hs, errKind]
  · simp [openConn, h0, fetchToken, hs]
  · simp [openConn, h0, fetchToken, hs, errKind]

/-- Witness for C1 (amended) at a concrete 401 token response. -/
theorem non200_uniform_connectionError_witness :
    errKind (fetchToken (.responded ⟨401, false, none, none, []⟩))
        = some .connectionError
      ∧ (openConn (sanitizeOptions emptyInput) initialState
          ⟨.responded ⟨401, false, none, none, []⟩,
            .responded ⟨401, false, none, none, []⟩, .opened⟩).attemptCount = 1 := by
  have h := non200_uniform_connectionError ⟨401, false, none, none, []⟩
    (sanitizeOptions emptyInput) initialState (by decide) rfl
  exact ⟨h.1, h.2.2.1⟩

/-- C3 counterexample: on a 200 response whose body lacks the id_token field,
or whose body does not parse as JSON (the parse failure is caught and the
body replaced by an empty object), _fetchToken resolves successfully with
undefined (none) - no Fatal error, and no error of any class, is raised. -/
theorem token_200_missing_idToken_cex :
    fetchToken (.responded ⟨200, true, none, none, []⟩) = .ok none
      ∧ fetchToken (.responded ⟨200, false, some "abc", none, []⟩) = .ok none :=
  ⟨rfl, rfl⟩

/-- C3 amended: on HTTP 200 _fetchToken returns the id_token field of the
parsed body, and resolves successfully with undefined (none) when the field
is absent or the body does not parse; it never throws in the 200 case. -/
theorem token_200_returns_idToken (r : HttpResponse) (h : r.status = 200) :
    fetchToken (.responded r) = .ok (if r.jsonParses then r.idToken else none) := by
  simp [fetchToken, h]

/-- Witness for C3 (amended): a 200 response with id_token "abc" yields the
token "abc". -/
theorem token_200_returns_idToken_witness :
    fetchToken (.responded okTokenResponse) = .ok (some "abc") :=
  (token_200_returns_idToken okTokenResponse rfl).trans rfl

/-- A caller options object requesting `amqp: { reconnect: true }`. -/
def reconnectTrueInput : OptionsInput :=
  ⟨none, none, none, none, .aObj ⟨none, none, none, .rcTrue⟩⟩

/-- C4 counterexample: with an empty caller configuration the sanitizer
leaves reconnect enabled with the bounded attempt limit 10 (the default
object), although the caller requested no reconnect; and a caller passing
reconnect: true also receives the bounded limit 10, not an unbounded one. -/
theorem sanitize_defaults_cex :
    reconnectOf (sanitizeOptions emptyInput) = .robj 10 100 60000
      ∧ reconnectEnabled (sanitizeOptions emptyInput) = true
      ∧ reconnectOf (sanitizeOptions reconnectTrueInput) = .robj 10 100 60000 :=
  ⟨rfl, rfl, rfl⟩

/-- C4 amended: the sanitizer defaults the operation timeout to 60 seconds
(also replacing an explicit falsy 0), and the reconnect policy to the
default object with attempt limit 10, initial delay 100 ms and max delay
60000 ms; that object results whenever the caller leaves amqp or reconnect
unset, passes a falsy amqp, or passes reconnect: true - so reconnect is
enabled by default - while a falsy reconnect disables the policy and a
partial tuning object is completed from the same defaults. -/
theorem sanitize_defaults (o : OptionsInput) :
    (sanitizeOptions o).operationTimeoutInSeconds
        = (match o.operationTimeoutInSeconds with
           | none => 60
           | some 0 => 60
           | some (Nat.succ t) => Nat.succ t)
      ∧ reconnectOf (sanitizeOptions o)
        = (match o.amqp with
           | .aUnset => .robj 10 100 60000
           | .aFalsy => .robj 10 100 60000
           | .aObj a =>
               match a.reconnect with
               | .rcUnset => .robj 10 100 60000
               | .rcTrue => .robj 10 100 60000
               | .rcFalsy => .rfalsy
               | .rcObj ro =>
                   .robj (ro.reconnect_limit.getD 10)
                     (ro.initial_reconnect_delay.getD 100)
                     (ro.max_reconnect_delay.getD 60000)) := by
  obtain ⟨u, ck, cs, t, a⟩ := o
  rcases a with _ | _ | ⟨p, mf, cm, r⟩ <;>
    rcases t with _ | (_ | m) <;>
    first
      | exact ⟨rfl, rfl⟩
      | (rcases r with _ | _ | _ | ro <;> exact ⟨rfl, rfl⟩)

/-- C7: a failure of the token fetch, the channel fetch or the transport open
that is not an HTTP response is classified ConnectionAbortError (the
Cancelled class) exactly when the thrown error is the AbortError raised by
the cancellation signal, and ConnectionError (the Retryable class) otherwise;
the Cancelled class is a distinct constructor, distinguishable by the caller
from both the Retryable and the Fatal class. -/
theorem nonHttp_failure_classification (name msg tok : String)
    (items : List ChannelDescriptor) (cfg : MergedOptions) (s0 : ConnState)
    (h0 : connIsOpen s0 = false) :
    fetchToken (.threw name msg)
        = .error (if name = "AbortError"
            then ⟨.connectionAbortError, "Abort fetch token!"⟩
            else ⟨.connectionError, "Failed to fetch token: " ++ msg⟩)
      ∧ fetchChannels (.threw name msg)
        = .error (if name = "AbortError"
            then ⟨.connectionAbortError, "Abort fetch remote channels!"⟩
            else ⟨.connectionError, "Failed to fetch remote channels: " ++ msg⟩)
      ∧ (openConn cfg s0 ⟨.responded ⟨200, true, some tok, none, []⟩,
            .responded ⟨200, true, none, none, items⟩, .threw name msg⟩).result
        = .error (if name = "AbortError"
            then ⟨.connectionAbortError, "Failed to open AMQP connection: " ++ msg⟩
            else ⟨.connectionError, "Failed to open AMQP connection: " ++ msg⟩)
      ∧ ErrorKind.connectionAbortError ≠ ErrorKind.connectionError
      ∧ ErrorKind.connectionAbortError ≠ ErrorKind.connectionFatalError := by
  refine ⟨?_, ?_, ?_, by decide, by decide⟩
  · by_cases hn : name = "AbortError" <;> simp [fetchToken, hn]
  · by_cases hn : name = "AbortError" <;> simp [fetchChannels, hn]
  · by_cases hn : name = "AbortError" <;>
      simp [openConn, h0, fetchToken, fetchChannels, hn]

/-- Witness for C7 at the AbortError produced by an aborted fetch. -/
theorem nonHttp_failure_classification_witness :
    fetchToken (.threw "AbortError" "The user aborted a request.")
        = .error ⟨.connectionAbortError, "Abort fetch token!"⟩
      ∧ ErrorKind.connectionAbortError ≠ ErrorKind.connectionError := by
  have h := nonHttp_failure_classification "AbortError" "The user aborted a request."
    "abc" [demoDesc] (sanitizeOptions emptyInput) initialState rfl
  exact ⟨h.1.trans (by rw [if_pos rfl]), h.2.2.2.1⟩

/-- C8: createSender, createReceiver and createAwaitableSender each fail with
the connection-closed error whenever isOpen() is false, fail with the
channel-not-found error naming the requested key whenever the key does not
resolve in the registry, and on success hand the transport an options object
whose target address (source address, for the receiver) is exactly the
registry destination - the destination is merged in last, so no
caller-supplied options value can override it. -/
theorem create_link_contracts (s : ConnState) (n : String) (o : LinkOpts) :
    (connIsOpen s = false →
        createSender s n o = .error ⟨.jsError, "Connection is closed!"⟩
          ∧ createReceiver s n o = .error ⟨.jsError, "Connection is closed!"⟩
          ∧ createAwaitableSender s n o = .error ⟨.jsError, "Connection is closed!"⟩)
      ∧ (connIsOpen s = true → getChannel s n = none →
          createSender s n o = .error ⟨.jsError,
              "Channel " ++ singleQuote ++ n ++ singleQuote ++ " not found"⟩
            ∧ createReceiver s n o = .error ⟨.jsError,
              "Channel " ++ singleQuote ++ n ++ singleQuote ++ " not found"⟩
            ∧ createAwaitableSender s n o = .error ⟨.jsError,
              "Channel " ++ singleQuote ++ n ++ singleQuote ++ " not found"⟩)
      ∧ (∀ ch, connIsOpen s = true → getChannel s n = some ch →
          (∃ c, createSender s n o = .ok c
              ∧ c.transportOpts.target.bind (fun a => a.address) = some ch.destination)
            ∧ (∃ c, createReceiver s n o = .ok c
              ∧ c.transportOpts.source.bind (fun a => a.address) = some ch.destination)
            ∧ (∃ c, createAwaitableSender s n o = .ok c
              ∧ c.transportOpts.target.bind (fun a => a.address) = some ch.destination)) := by
  refine ⟨fun hc => ?_, fun ho hn => ?_, fun ch ho hc => ?_⟩
  · simp [createSender, createReceiver, createAwaitableSender, hc]
  · simp [createSender, createReceiver, createAwaitableSender, ho, hn]
  · refine ⟨⟨⟨mergeTargetAddress o ch.destination, mergeTargetAddress o ch.destination⟩,
        ?_, ?_⟩,
      ⟨⟨mergeSourceAddress o ch.destination, mergeSourceAddress o ch.destination⟩,
        ?_, ?_⟩,
      ⟨⟨mergeTargetAddress o ch.destination, mergeTargetAddress o ch.destination⟩,
        ?_, ?_⟩⟩ <;>
      simp [createSender, createReceiver, createAwaitableSender, ho, hc,
        mergeTargetAddress, mergeSourceAddress, mergeAddress]

/-- A caller options object trying to override both addresses. -/
def overrideOpts : LinkOpts :=
  ⟨some "my-link", some ⟨some "evil-target", some 1⟩, some ⟨some "evil-source", some 2⟩⟩

/-- Witness for C8: a closed connection rejects, an unknown key rejects with
the key in the message, and even an options object carrying its own target
address receives the registry destination. -/
theorem create_link_contracts_witness :
    createSender initialState "P.C" emptyLinkOpts
        = .error ⟨.jsError, "Connection is closed!"⟩
      ∧ createSender openedDemoState "X.Y" emptyLinkOpts
        = .error ⟨.jsError,
            "Channel " ++ singleQuote ++ "X.Y" ++ singleQuote ++ " not found"⟩
      ∧ (∃ c, createSender openedDemoState "P.C" overrideOpts = .ok c
          ∧ c.transportOpts.target.bind (fun a => a.address) = some "queue/p/c") := by
  refine ⟨((create_link_contracts initialState "P.C" emptyLinkOpts).1 rfl).1,
    ((create_link_contracts openedDemoState "X.Y" emptyLinkOpts).2.1 rfl rfl).1,
    ?_⟩
  exact ((create_link_contracts openedDemoState "P.C" overrideOpts).2.2 demoDesc rfl rfl).1

/-- C10: on the success path each creation operation passes the caller
options object itself to the transport - the deep merge mutates it in place
and returns it rather than building a fresh value - so after the call the
caller object equals the transport options object and equals the deep merge
of its old value with the injected address record; a caller object with no
target (source, for the receiver) record is therefore changed by the call. -/
theorem create_mutates_caller_options (s : ConnState) (n : String) (o : LinkOpts)
    (ch : ChannelDescriptor) (ho : connIsOpen s = true) (hc : getChannel s n = some ch) :
    (∃ c, createSender s n o = .ok c
        ∧ c.callerOptsAfter = c.transportOpts
        ∧ c.callerOptsAfter = mergeTargetAddress o ch.destination
        ∧ (o.target = none → c.callerOptsAfter ≠ o))
      ∧ (∃ c, createReceiver s n o = .ok c
        ∧ c.callerOptsAfter = c.transportOpts
        ∧ c.callerOptsAfter = mergeSourceAddress o ch.destination
        ∧ (o.source = none → c.callerOptsAfter ≠ o))
      ∧ (∃ c, createAwaitableSender s n o = .ok c
        ∧ c.callerOptsAfter = c.transportOpts
        ∧ c.callerOptsAfter = mergeTargetAddress o ch.destination
        ∧ (o.target = none → c.callerOptsAfter ≠ o)) := by
  refine ⟨⟨⟨mergeTargetAddress o ch.destination, mergeTargetAddress o ch.destination⟩,
      ?_, rfl, rfl, ?_⟩,
    ⟨⟨mergeSourceAddress o ch.destination, mergeSourceAddress o ch.destination⟩,
      ?_, rfl, rfl, ?_⟩,
    ⟨⟨mergeTargetAddress o ch.destination, mergeTargetAddress o ch.destination⟩,
      ?_, rfl, rfl, ?_⟩⟩
  · simp [createSender, ho, hc]
  · intro ht heq
    have h := congrArg LinkOpts.target heq
    simp [mergeTargetAddress, ht] at h
  · simp [createReceiver, ho, hc]
  · intro ht heq
    have h := congrArg LinkOpts.source heq
    simp [mergeSourceAddress, ht] at h
  · simp [createAwaitableSender, ho, hc]
  · intro ht heq
    have h := congrArg LinkOpts.target heq
    simp [mergeTargetAddress, ht] at h

/-- Witness for C10: creating a sender over an empty options object leaves
the caller object changed (it now carries the injected target address). -/
theorem create_mutates_caller_options_witness :
    ∃ c, createSender openedDemoState "P.C" emptyLinkOpts = .ok c
      ∧ c.callerOptsAfter ≠ emptyLinkOpts := by
  obtain ⟨c, h1, _h2, _h3, h4⟩ :=
    (create_mutates_caller_options openedDemoState "P.C" emptyLinkOpts demoDesc rfl rfl).1
  exact ⟨c, h1, h4 rfl⟩
